import Mathlib

/-!
Verification of the enclave facade (`enclaveImpl`) of the go-ten repository.

The Go source is shallowly embedded: every external collaborator of the facade
(storage, block processor, node service, crypto, compression) is represented by
the result it returns to the facade, packaged in an environment record, and each
facade method is translated into a Lean function over that environment which
returns its outcome together with the list of effectful actions it performed,
in program order.  Hashes, keys, secrets and payloads are modelled as `Nat`.
-/

namespace GoTen

/-- Classification codes of the structured error envelope, from the error
taxonomy of the system: `Unavailable`, `Internal`, `BlockReject`, `UserFacing`. -/
inductive ErrCode where
  | unavailable
  | internal
  | blockRejectCode
  | userFacing
  deriving DecidableEq, Repr

/-- A structured SystemError as the facade produces it.  `internalError` is the
shape built by `responses.ToInternalError`; `blockReject` is
`errutil.BlockRejectError` carrying the current L1 head hash and a wrapped
cause; `rawError` is a plain Go error returned directly as a SystemError
(as `SubmitBatch` does for a failed converted-header computation). -/
inductive SysErr where
  | internalError (msg : String)
  | blockReject (l1Head : Nat) (cause : String)
  | rawError (msg : String)
  deriving DecidableEq, Repr

/-- Modelled from the spec: `responses.ToInternalError` (package `go/responses`,
not part of the sources) wraps a cause into a structured SystemError of the
`Internal` classification of the error envelope. -/
def ToInternalError (msg : String) : SysErr := .internalError msg

/-- The classification code carried by a structured error.  A `rawError` has no
classification of its own. -/
def SysErr.code : SysErr → Option ErrCode
  | .internalError _ => some .internal
  | .blockReject _ _ => some .blockRejectCode
  | .rawError _ => none

/-- Result of a facade call: a typed payload, a structured SystemError, or an
abnormal termination of the goroutine (a Go `panic`). -/
inductive Outcome (α : Type) where
  | ok (a : α)
  | err (e : SysErr)
  | panicked (msg : String)
  deriving DecidableEq, Repr

/-- An outcome is structured when it is a payload or a SystemError, never an
abnormal termination. -/
def Outcome.isStructured : Outcome α → Bool
  | .ok _ => true
  | .err _ => true
  | .panicked _ => false

/-- Effectful steps a facade call performs, in program order.  `lock` and
`unlock` are the operations on the single ingestion mutex `mainMutex`. -/
inductive Action where
  | lock
  | unlock
  | storeBatch (seqNo : Nat)
  | executeStoredBatches
  | processL1Block
  | processRollups
  | onL1Fork
  | onL1Block
  | serviceCreateBatch
  | serviceCreateRollup
  | processSecretMsgs
  | logDebug
  | logWarn
  | logError
  | vkRpcWork
  deriving DecidableEq, Repr

/-- State-mutating steps: storing blocks or batches, executing batches, fork
and block notifications to the node service, rollup processing and secret
message processing.  Mutex operations and logging or pure RPC reads are not
state-mutating. -/
def Action.isMutating : Action → Bool
  | .storeBatch _ => true
  | .executeStoredBatches => true
  | .processL1Block => true
  | .processRollups => true
  | .onL1Fork => true
  | .onL1Block => true
  | .serviceCreateBatch => true
  | .serviceCreateRollup => true
  | .processSecretMsgs => true
  | _ => false

/-- Scans a trace keeping track of whether the mutex is held; all mutating
actions must happen while it is held. -/
def heldScan : Bool → List Action → Bool
  | _, [] => true
  | _, .lock :: rest => heldScan true rest
  | _, .unlock :: rest => heldScan false rest
  | locked, a :: rest => (!a.isMutating || locked) && heldScan locked rest

/-- Every state-mutating action of the trace happens between a lock and the
matching unlock of the ingestion mutex. -/
def mutatesOnlyUnderLock (tr : List Action) : Bool := heldScan false tr

/-- An L2 batch as stored by the enclave: height (`NumberU64`), sequencer order
number, hash and parent hash. -/
structure Batch where
  number : Nat
  seqNo : Nat
  hash : Nat
  parentHash : Nat
  deriving DecidableEq, Repr

/-- The slice of the storage adapter the facade consults: the stored batches
and the set of batch hashes whose stateDB snapshot is cached.  Lookups that
fail return `none`, corresponding to `errutil.ErrNotFound`. -/
structure Storage where
  batches : List Batch
  cache : List Nat
  deriving DecidableEq, Repr

/-- `storage.FetchBatchBySeqNo`: the stored batch with the given sequencer
order number, if present. -/
def Storage.fetchBatchBySeqNo (st : Storage) (n : Nat) : Option Batch :=
  st.batches.find? (fun b => b.seqNo == n)

/-- `storage.FetchBatch`: the stored batch with the given hash, if present. -/
def Storage.fetchBatch (st : Storage) (h : Nat) : Option Batch :=
  st.batches.find? (fun b => b.hash == h)

/-- `storage.CreateStateDB`: succeeds exactly when the snapshot for the given
batch hash is in the stateDB cache. -/
def Storage.createStateDB (st : Storage) (h : Nat) : Except String Unit :=
  if st.cache.contains h then .ok () else .error "not found"

/-- Source `stateDBAvailableForBatch`: the stateDB data is available for a
batch hash when `CreateStateDB` succeeds for it. -/
def stateDBAvailableForBatch (st : Storage) (h : Nat) : Bool :=
  match st.createStateDB h with
  | .ok _ => true
  | .error _ => false

/-- Modelled from the spec: `common.L2GenesisSeqNo` (package `go/common`, not
part of the sources) is the sequencer order number of the genesis batch; the
spec states sequencer order numbers are dense from 1 and the first sequence
number is 1. -/
def L2GenesisSeqNo : Nat := 1

/-- Environment of one `SubmitBatch` call: the stop flag, the storage contents,
whether the node service is a validator (`e.Validator()` panics otherwise), and
the results of the external steps in source order: `core.ToBatch`,
`VerifySequencerSignature`, `CreateEthHeaderForBatch`, `StoreBatch`,
`ExecuteStoredBatches`. -/
structure SubmitBatchEnv where
  stopping : Bool
  storage : Storage
  isValidator : Bool
  toBatchResult : Except String Unit
  sigResult : Except String Unit
  convertedHeader : Except String Nat
  storeResult : Except String Unit
  executeResult : Except String Unit

/-- Embedding of `enclaveImpl.SubmitBatch`.  Mirrors the source: stop-control
check; if `seqNo > L2GenesisSeqNo + 1` require the parent batch (seq - 1) in
storage; convert the ExtBatch; verify the sequencer signature through the
validator service; compute the converted header; then, under the ingestion
mutex, store the batch and execute stored batches. -/
def submitBatch (env : SubmitBatchEnv) (seqNo : Nat) : Outcome Unit × List Action :=
  if env.stopping then
    (.err (ToInternalError "requested SubmitBatch with the enclave stopping"), [])
  else
    if seqNo > L2GenesisSeqNo + 1 && (env.storage.fetchBatchBySeqNo (seqNo - 1)).isNone then
      (.err (ToInternalError ("could not find previous batch with seq: " ++ toString (seqNo - 1))), [])
    else
      match env.toBatchResult with
      | .error m => (.err (ToInternalError ("could not convert batch. Cause: " ++ m)), [])
      | .ok _ =>
        if !env.isValidator then
          (.panicked "enclave service is not a validator but validator was requested!", [])
        else
          match env.sigResult with
          | .error m =>
            (.err (ToInternalError ("invalid batch received. Could not verify signature. Cause: " ++ m)), [])
          | .ok _ =>
            match env.convertedHeader with
            | .error m => (.err (.rawError m), [])
            | .ok _ =>
              match env.storeResult with
              | .error m =>
                (.err (ToInternalError ("could not store batch. Cause: " ++ m)),
                  [.lock, .storeBatch seqNo, .unlock])
              | .ok _ =>
                match env.executeResult with
                | .error m =>
                  (.err (ToInternalError ("could not execute batches. Cause: " ++ m)),
                    [.lock, .storeBatch seqNo, .executeStoredBatches, .unlock])
                | .ok _ =>
                  (.ok (), [.lock, .storeBatch seqNo, .executeStoredBatches, .unlock])

/-- Errors of `l1BlockProcessor.Process`: the sentinel conditions
`errutil.ErrBlockAlreadyProcessed` and `errutil.ErrBlockAncestorNotFound`,
matched by kind at the call site, or any other error. -/
inductive ProcErr where
  | alreadyProcessed
  | ancestorNotFound
  | otherErr (msg : String)
  deriving DecidableEq, Repr

/-- Modelled from the spec: the message text of the two sentinel errors of
package `go/common/errutil` (not part of the sources); the exact wording is
immaterial to the claims, only the kind matching is. -/
def ProcErr.message : ProcErr → String
  | .alreadyProcessed => "block already processed"
  | .ancestorNotFound => "block ancestor not found"
  | .otherErr m => m

/-- Errors of `rollupConsumer.ProcessRollupsInBlock`: the sentinel
`components.ErrDuplicateRollup` matched by kind at the call site, or any
other error. -/
inductive RollupErr where
  | duplicateRollup
  | otherErr (msg : String)
  deriving DecidableEq, Repr

/-- The `BlockIngestionType` returned by the L1 block processor; the facade
only inspects whether the ingestion detected a fork. -/
structure Ingestion where
  isFork : Bool
  deriving DecidableEq, Repr

/-- Environment of one `SubmitL1Block` call: the stop flag, the results of
`ParseBlockAndReceipts`, `l1BlockProcessor.Process`,
`rollupConsumer.ProcessRollupsInBlock`, `service.OnL1Fork`,
`service.OnL1Block`, and the current L1 head hash held by the block processor
(`none` when `GetHead` fails). -/
structure L1Env where
  stopping : Bool
  parseResult : Except String Unit
  processResult : Except ProcErr Ingestion
  rollupResult : Except RollupErr Unit
  onL1ForkResult : Except String Unit
  onL1BlockResult : Except String Unit
  l1Head : Option Nat

/-- Embedding of `enclaveImpl.rejectBlockErr`: wraps a cause into a
`BlockRejectError` carrying the current L1 head hash; when `GetHead` fails the
hash field keeps its zero value. -/
def rejectBlockErr (l1Head : Option Nat) (cause : String) : SysErr :=
  .blockReject (match l1Head with | some h => h | none => 0) cause

/-- Embedding of `enclaveImpl.ingestL1Block`.  Mirrors the source: run the L1
block processor; on failure log at debug level for the sentinel kinds
(already processed, ancestor not found) and at warn level otherwise, and
return the error.  On success process rollups in the block, swallowing a
duplicate-rollup error and merely logging any other rollup error, then notify
the node service of a fork when one was detected.  The `processL1Block`
action stands for the successful append of the block to the stored block
tree. -/
def ingestL1Block (env : L1Env) : Except String Ingestion × List Action :=
  match env.processResult with
  | .error e =>
    (.error e.message,
      [if e == .alreadyProcessed || e == .ancestorNotFound then .logDebug else .logWarn])
  | .ok ingestion =>
    let tr := [Action.processL1Block, Action.processRollups] ++
      (match env.rollupResult with
        | .error (.otherErr _) => [Action.logError]
        | _ => [])
    if ingestion.isFork then
      match env.onL1ForkResult with
      | .error m => (.error m, tr ++ [.onL1Fork])
      | .ok _ => (.ok ingestion, tr ++ [.onL1Fork])
    else
      (.ok ingestion, tr)

/-- Embedding of `enclaveImpl.SubmitL1Block`.  Mirrors the source: stop-control
check; acquire the ingestion mutex for the rest of the call; parse the block
and receipts, ingest the block, and notify the node service, turning each
failure into `rejectBlockErr` wrapping the cause; on success process network
secret messages and return the block submission response. -/
def submitL1Block (env : L1Env) : Outcome Unit × List Action :=
  if env.stopping then
    (.err (ToInternalError "requested SubmitL1Block with the enclave stopping"), [])
  else
    match env.parseResult with
    | .error m =>
      (.err (rejectBlockErr env.l1Head ("could not submit L1 block. Cause: " ++ m)),
        [.lock, .unlock])
    | .ok _ =>
      match ingestL1Block env with
      | (.error m, tr) =>
        (.err (rejectBlockErr env.l1Head ("could not submit L1 block. Cause: " ++ m)),
          [.lock] ++ tr ++ [.unlock])
      | (.ok _, tr) =>
        match env.onL1BlockResult with
        | .error m =>
          (.err (rejectBlockErr env.l1Head ("could not submit L1 block. Cause: " ++ m)),
            [.lock] ++ tr ++ [.onL1Block, .unlock])
        | .ok _ =>
          (.ok (), [.lock] ++ tr ++ [.onL1Block, .processSecretMsgs, .unlock])

/-- Environment of one `CreateBatch` call: the stop flag, whether the node is
configured as a sequencer (`e.Sequencer()` panics otherwise), and the result
of the sequencer service call. -/
structure CreateBatchEnv where
  stopping : Bool
  isSequencer : Bool
  serviceResult : Except String Unit

/-- Embedding of `enclaveImpl.CreateBatch`: stop-control check; under the
ingestion mutex, ask the sequencer service to create a batch.  On a node that
is not a sequencer the `e.Sequencer()` accessor panics; the deferred unlock
still runs while the panic unwinds. -/
def createBatch (env : CreateBatchEnv) : Outcome Unit × List Action :=
  if env.stopping then
    (.err (ToInternalError "requested CreateBatch with the enclave stopping"), [])
  else
    if !env.isSequencer then
      (.panicked "enclave service is not a sequencer but sequencer was requested!",
        [.lock, .unlock])
    else
      match env.serviceResult with
      | .error m => (.err (ToInternalError m), [.lock, .serviceCreateBatch, .unlock])
      | .ok _ => (.ok (), [.lock, .serviceCreateBatch, .unlock])

/-- Environment of one `CreateRollup` call: the stop flag, whether the node is
configured as a sequencer, the head batch sequence number held by the registry,
and the result of the sequencer service call (the produced rollup). -/
structure CreateRollupEnv where
  stopping : Bool
  isSequencer : Bool
  headBatchSeq : Option Nat
  serviceResult : Except String Nat

/-- Embedding of `enclaveImpl.CreateRollup`: stop-control check; under the
ingestion mutex, fail when the registry has no head batch, then ask the
sequencer service to create the rollup from the given sequence number.  On a
node that is not a sequencer the `e.Sequencer()` accessor panics (after the
registry check); the deferred unlock still runs while the panic unwinds. -/
def createRollup (env : CreateRollupEnv) : Outcome Nat × List Action :=
  if env.stopping then
    (.err (ToInternalError "requested GenerateRollup with the enclave stopping"), [])
  else
    match env.headBatchSeq with
    | none => (.err (ToInternalError "not initialised yet"), [.lock, .unlock])
    | some _ =>
      if !env.isSequencer then
        (.panicked "enclave service is not a sequencer but sequencer was requested!",
          [.lock, .unlock])
      else
        match env.serviceResult with
        | .error m => (.err (ToInternalError m), [.lock, .serviceCreateRollup, .unlock])
        | .ok r => (.ok r, [.lock, .serviceCreateRollup, .unlock])

/-- Embedding of the shared shape of the read-only encrypted RPC entry points
(`rpc.WithVKEncryption` behind a stop-control check): decrypt the viewing-key
wrapped parameters, run the read, re-encrypt the reply.  No mutex operation
appears anywhere on this path. -/
def withVKEncryption (stopping : Bool) (rpcResult : Except String Nat) (opName : String) :
    Outcome Nat × List Action :=
  if stopping then
    (.err (ToInternalError ("requested " ++ opName ++ " with the enclave stopping")), [])
  else
    match rpcResult with
    | .ok v => (.ok v, [.vkRpcWork])
    | .error m => (.err (.rawError m), [.vkRpcWork])

/-- Embedding of `enclaveImpl.ObsCall`. -/
def obsCall (stopping : Bool) (r : Except String Nat) : Outcome Nat × List Action :=
  withVKEncryption stopping r "ObsCall"

/-- Embedding of `enclaveImpl.GetBalance`. -/
def getBalance (stopping : Bool) (r : Except String Nat) : Outcome Nat × List Action :=
  withVKEncryption stopping r "GetBalance"

/-- Embedding of `enclaveImpl.GetTransaction`. -/
def getTransaction (stopping : Bool) (r : Except String Nat) : Outcome Nat × List Action :=
  withVKEncryption stopping r "GetTransaction"

/-- Embedding of `enclaveImpl.GetTransactionReceipt`. -/
def getTransactionReceipt (stopping : Bool) (r : Except String Nat) : Outcome Nat × List Action :=
  withVKEncryption stopping r "GetTransactionReceipt"

/-- Embedding of `enclaveImpl.GetTransactionCount`. -/
def getTransactionCount (stopping : Bool) (r : Except String Nat) : Outcome Nat × List Action :=
  withVKEncryption stopping r "GetTransactionCount"

/-- Embedding of `enclaveImpl.GetLogs`. -/
def getLogs (stopping : Bool) (r : Except String Nat) : Outcome Nat × List Action :=
  withVKEncryption stopping r "GetLogs"

/-- Embedding of `enclaveImpl.EstimateGas`. -/
def estimateGas (stopping : Bool) (r : Except String Nat) : Outcome Nat × List Action :=
  withVKEncryption stopping r "EstimateGas"

/-- Embedding of `enclaveImpl.GetCustomQuery`. -/
def getCustomQuery (stopping : Bool) (r : Except String Nat) : Outcome Nat × List Action :=
  withVKEncryption stopping r "GetReceiptsByAddress"

/-- Errors of `storage.FetchSecret`: the sentinel `errutil.ErrNotFound`, which
is returned exactly when no shared secret has been stored, or any other
storage error. -/
inductive FetchErr where
  | notFound
  | otherErr (msg : String)
  deriving DecidableEq, Repr

/-- The status codes of the `common.Status` payload. -/
inductive StatusCode where
  | running
  | awaitingSecret
  | unavailableCode
  deriving DecidableEq, Repr

/-- The `common.Status` payload: status code, current L1 head hash and highest
stored L2 sequencer number; zero stands for the zero hash and for the absent
head batch (`_noHeadBatch`). -/
structure Status where
  code : StatusCode
  l1Head : Nat
  l2Head : Nat
  deriving DecidableEq, Repr

/-- Environment of one `Status` call: the stop flag, the result of
`storage.FetchSecret`, of `l1BlockProcessor.GetHead` (returning the head
hash), and of `storage.FetchCurrentSequencerNo`. -/
structure StatusEnv where
  stopping : Bool
  fetchSecret : Except FetchErr Nat
  getHead : Except String Nat
  fetchCurrentSequencerNo : Except String Nat

/-- Embedding of `enclaveImpl.Status`.  Mirrors the source: if stopping, an
Unavailable status with an error; if no secret is stored, AwaitingSecret with
`L2Head` zero and no error; on any other secret-fetch failure, Unavailable
with an error; otherwise Running, with the zero hash when no L1 head exists
and zero when no sequencer number is stored, never an error. -/
def status (env : StatusEnv) : Status × Option SysErr :=
  if env.stopping then
    ({ code := .unavailableCode, l1Head := 0, l2Head := 0 },
      some (ToInternalError "requested Status with the enclave stopping"))
  else
    match env.fetchSecret with
    | .error .notFound =>
      ({ code := .awaitingSecret, l1Head := 0, l2Head := 0 }, none)
    | .error (.otherErr m) =>
      ({ code := .unavailableCode, l1Head := 0, l2Head := 0 }, some (ToInternalError m))
    | .ok _ =>
      let l1HeadHash := match env.getHead with | .ok h => h | .error _ => 0
      let l2HeadSeqNo := match env.fetchCurrentSequencerNo with | .ok n => n | .error _ => 0
      ({ code := .running, l1Head := l1HeadHash, l2Head := l2HeadSeqNo }, none)

/-- An abstract asymmetric encryption scheme standing for the ECIES operations
of package `go/enclave/crypto`: `encrypt pub secret` is the envelope
`EncryptSecret` produces, `decrypt priv envelope` is what `DecryptSecret`
recovers (or `none` on failure). -/
structure CryptoScheme where
  encrypt : Nat → Nat → Nat
  decrypt : Nat → Nat → Option Nat

/-- The part of one enclave the secret lifecycle touches: its identity keypair
and the stored shared secret. -/
structure EnclaveState where
  pubKey : Nat
  privKey : Nat
  storedSecret : Option Nat
  stopping : Bool
  deriving DecidableEq, Repr

/-- Embedding of `enclaveImpl.GenerateSecret`: stop-control check; generate
entropy, store it as the shared secret, and return it encrypted under the
own enclave public key. -/
def generateSecret (cs : CryptoScheme) (entropy : Nat) (storeOk : Bool) (st : EnclaveState) :
    Outcome Nat × EnclaveState :=
  if st.stopping then
    (.err (ToInternalError "requested GenerateSecret with the enclave stopping"), st)
  else
    if !storeOk then
      (.err (ToInternalError "could not store secret"), st)
    else
      (.ok (cs.encrypt st.pubKey entropy), { st with storedSecret := some entropy })

/-- Embedding of `enclaveImpl.InitEnclave`: stop-control check; decrypt the
received envelope with the own enclave private key and store the recovered
shared secret. -/
def initEnclave (cs : CryptoScheme) (envelope : Nat) (storeOk : Bool) (st : EnclaveState) :
    Outcome Unit × EnclaveState :=
  if st.stopping then
    (.err (ToInternalError "requested InitEnclave with the enclave stopping"), st)
  else
    match cs.decrypt st.privKey envelope with
    | none => (.err (ToInternalError "could not decrypt secret"), st)
    | some secret =>
      if !storeOk then
        (.err (ToInternalError "could not store secret"), st)
      else
        (.ok (), { st with storedSecret := some secret })

/-- Environment of one `Stop` call: whether a profiler is running and the
error results of stopping it, of closing the node service and of closing
storage. -/
structure StopEnv where
  profilerPresent : Bool
  profilerStopErr : Option String
  serviceCloseErr : Option String
  storageCloseErr : Option String

/-- Embedding of `enclaveImpl.Stop`: set the stop-control flag first (blocking
all further requests), then stop the profiler (returning its error), close
the node service (error only logged), and close storage (returning its
error).  The input stop flag is not consulted. -/
def stopImpl (_wasStopping : Bool) (env : StopEnv) : Option SysErr × Bool :=
  let stopping := true
  if env.profilerPresent then
    match env.profilerStopErr with
    | some m => (some (.rawError m), stopping)
    | none =>
      match env.storageCloseErr with
      | some m => (some (.rawError m), stopping)
      | none => (none, stopping)
  else
    match env.storageCloseErr with
    | some m => (some (.rawError m), stopping)
    | none => (none, stopping)

/-- Embedding of `enclaveImpl.EnclaveID`: returns the enclave identity derived
from the enclave key; the source performs no stop-control check here. -/
def enclaveID (_stopping : Bool) (key : Nat) : Outcome Nat :=
  .ok key

/-- Embedding of `enclaveImpl.GetBatch`: fetch the batch by hash and convert
it to an ExtBatch; the source performs no stop-control check here. -/
def getBatch (_stopping : Bool) (fetchResult : Except String Unit)
    (convertResult : Except String Unit) : Outcome Unit :=
  match fetchResult with
  | .error m => .err (ToInternalError ("failed getting batch. Cause: " ++ m))
  | .ok _ =>
    match convertResult with
    | .error m => .err (ToInternalError m)
    | .ok _ => .ok ()

/-- Replay steps the startup recovery performs, in order: seeding the genesis
state through the Genesis collaborator, or executing a stored batch (by its
sequencer order number) through the BatchExecutor, which commits its stateDB
snapshot to the cache. -/
inductive ReplayAction where
  | commitGenesis
  | executeBatch (seqNo : Nat)
  deriving DecidableEq, Repr

/-- Results of the external collaborators of the replay: whether
`batchExecutor.ExecuteBatch` succeeds for a given sequencer order number and
whether `gen.CommitGenesisState` succeeds. -/
structure ReplayEnv where
  executeOk : Nat → Bool
  genesisOk : Bool

/-- The backward walk inside `replayBatchesToValidState`: starting from the
head batch, collect batches whose stateDB snapshot is not cached, following
parent hashes, stopping at the first batch whose snapshot is available (not
collected) or after collecting the genesis batch (height 0).  The walk in the
source is a while loop over finite storage; the fuel argument bounds the
recursion and is never exhausted when fuel exceeds the head batch height. -/
def collectBatches (st : Storage) : Nat → Batch → Except String (List Batch)
  | 0, _ => .error "out of fuel"
  | fuel + 1, b =>
    if stateDBAvailableForBatch st b.hash then .ok []
    else if b.number == 0 then .ok [b]
    else
      match st.fetchBatch b.parentHash with
      | none => .error "unable to fetch previous batch while rolling back to stable state"
      | some p => (collectBatches st fuel p).map (fun l => b :: l)

/-- The forward loop of `replayBatchesToValidState` over the collected batches
in ascending order (the source iterates the newest-to-oldest slice in
reverse): the genesis batch (height 0) is seeded through
`gen.CommitGenesisState`, every other batch is re-executed through
`batchExecutor.ExecuteBatch`, caching its stateDB snapshot; a failing step
aborts the replay with its error. -/
def replayForward (env : ReplayEnv) : List Batch → Except String (List ReplayAction)
  | [] => .ok []
  | b :: rest =>
    if b.number == 0 then
      if env.genesisOk then (replayForward env rest).map (fun l => .commitGenesis :: l)
      else .error "could not commit genesis state"
    else
      if env.executeOk b.seqNo then
        (replayForward env rest).map (fun l => .executeBatch b.seqNo :: l)
      else .error "could not execute batch"

/-- Embedding of `replayBatchesToValidState`: fetch the head batch by its
sequence number, walk backwards collecting batches without a cached snapshot,
then replay the collected batches forward (the collected list is
newest-to-oldest, so the forward replay runs over its reversal). -/
def replayBatchesToValidState (st : Storage) (env : ReplayEnv) (headSeq : Nat) (fuel : Nat) :
    Except String (List ReplayAction) :=
  match st.fetchBatchBySeqNo headSeq with
  | none => .error "no head batch found in DB but expected to replay batches"
  | some b =>
    match collectBatches st fuel b with
    | .error e => .error e
    | .ok batchesToReplay => replayForward env batchesToReplay.reverse

/-- Embedding of `restoreStateDBCache`: do nothing when the registry has no
head batch sequence number, or when the head batch is absent from storage
(`ErrNotFound`), or when the stateDB snapshot of the head batch is already
cached; otherwise rebuild the cache through `replayBatchesToValidState`. -/
def restoreStateDBCache (st : Storage) (headBatchSeq : Option Nat) (env : ReplayEnv)
    (fuel : Nat) : Except String (List ReplayAction) :=
  match headBatchSeq with
  | none => .ok []
  | some hs =>
    match st.fetchBatchBySeqNo hs with
    | none => .ok []
    | some batch =>
      if stateDBAvailableForBatch st batch.hash then .ok []
      else replayBatchesToValidState st env hs fuel

/-- Well-formed storage: every stored non-genesis batch resolves its parent
hash to a stored batch of strictly smaller height.  This is the spec invariant
that every non-genesis batch has a locally resolvable parent with heights
increasing along parent links, weakened to what the recovery walk needs. -/
def wfStorage (st : Storage) : Bool :=
  st.batches.all (fun b =>
    b.number == 0 ||
      (match st.fetchBatch b.parentHash with
        | some p => decide (p.number < b.number)
        | none => false))

/-- The collected list is a parent-linked chain: each batch in it resolves its
parent hash to the next batch in the list. -/
def parentChain (st : Storage) : List Batch → Bool
  | [] => true
  | [_] => true
  | b :: p :: rest => (st.fetchBatch b.parentHash == some p) && parentChain st (p :: rest)

/-- The walk stopped for the right reason: the last collected batch is the
genesis batch, or its parent resolves and has a cached snapshot. -/
def walkEnds (st : Storage) (l : List Batch) : Bool :=
  match l.getLast? with
  | none => true
  | some t =>
    t.number == 0 ||
      (match st.fetchBatch t.parentHash with
        | some p => stateDBAvailableForBatch st p.hash
        | none => false)

/-- The replay actions the claim predicts for a collected (newest-to-oldest)
list: ascending over its reversal, seeding genesis for the height-0 batch and
executing every other batch. -/
def replayActions (l : List Batch) : List ReplayAction :=
  l.reverse.map (fun b => if b.number == 0 then .commitGenesis else .executeBatch b.seqNo)

/-! Theorems settling the claims. -/

/-- Concrete `SubmitBatch` environment for claim C1: not stopping, empty
storage (so no parent batch is present), a validator node, and every later
step succeeding. -/
def envC1 : SubmitBatchEnv :=
  { stopping := false
    storage := { batches := [], cache := [] }
    isValidator := true
    toBatchResult := .ok ()
    sigResult := .ok ()
    convertedHeader := .ok 0
    storeResult := .ok ()
    executeResult := .ok () }

/-- C1 counterexample: submitting a batch with sequence number 3 whose parent
(sequence number 2) is absent fails, but the error `SubmitBatch` returns is
built by `responses.ToInternalError` and is classified `Internal`, not
`UserFacing` as the claim states; the batch is indeed not stored. -/
theorem C1_counterexample :
    (submitBatch envC1 3).fst =
      .err (ToInternalError ("could not find previous batch with seq: " ++ toString (3 - 1))) ∧
    SysErr.code (ToInternalError ("could not find previous batch with seq: " ++ toString (3 - 1))) ≠
      some ErrCode.userFacing ∧
    Action.storeBatch 3 ∉ (submitBatch envC1 3).snd := by
  refine ⟨rfl, by decide, by decide⟩

/-- C1 (amended): for every ExtBatch submitted via `SubmitBatch` whose
sequence number satisfies `seq > genesisSeq + 1` and whose parent batch
(sequence number seq - 1) is not present in local storage, the call fails
with an error reporting the missing previous batch, classified `Internal` by
`responses.ToInternalError` (not `UserFacing`), and the batch is not stored. -/
theorem C1_missing_parent (env : SubmitBatchEnv) (seqNo : Nat)
    (hstop : env.stopping = false)
    (hseq : seqNo > L2GenesisSeqNo + 1)
    (hpar : env.storage.fetchBatchBySeqNo (seqNo - 1) = none) :
    submitBatch env seqNo =
      (.err (ToInternalError ("could not find previous batch with seq: " ++ toString (seqNo - 1))),
        []) ∧
    SysErr.code
        (ToInternalError ("could not find previous batch with seq: " ++ toString (seqNo - 1))) =
      some ErrCode.internal ∧
    Action.storeBatch seqNo ∉ (submitBatch env seqNo).snd := by
  have hcond : (decide (seqNo > L2GenesisSeqNo + 1) &&
      (env.storage.fetchBatchBySeqNo (seqNo - 1)).isNone) = true := by
    simp [hseq, hpar]
  have heq : submitBatch env seqNo =
      (.err (ToInternalError ("could not find previous batch with seq: " ++ toString (seqNo - 1))),
        []) := by
    simp [submitBatch, hstop, hcond]
  refine ⟨heq, rfl, ?_⟩
  rw [heq]
  simp

/-- C1 witness: the amended theorem evaluated on `envC1` at sequence
number 3. -/
theorem C1_missing_parent_witness :
    submitBatch envC1 3 =
      (.err (ToInternalError ("could not find previous batch with seq: " ++ toString (3 - 1))),
        []) ∧
    SysErr.code
        (ToInternalError ("could not find previous batch with seq: " ++ toString (3 - 1))) =
      some ErrCode.internal ∧
    Action.storeBatch 3 ∉ (submitBatch envC1 3).snd :=
  C1_missing_parent envC1 3 rfl (by decide) rfl

/-- C9: `SubmitBatch` is atomic on failure of its pre-storage checks: when the
parent-presence check, the ExtBatch conversion, the sequencer-signature
verification or the converted-header computation fails, the call returns an
error and neither stores the batch nor calls `ExecuteStoredBatches`. -/
theorem C9_submitBatch_atomic (env : SubmitBatchEnv) (seqNo : Nat)
    (hval : env.isValidator = true)
    (hfail :
      (seqNo > L2GenesisSeqNo + 1 ∧ env.storage.fetchBatchBySeqNo (seqNo - 1) = none) ∨
      (∃ m, env.toBatchResult = .error m) ∨
      (∃ m, env.sigResult = .error m) ∨
      (∃ m, env.convertedHeader = .error m)) :
    (∃ e, (submitBatch env seqNo).fst = .err e) ∧
    Action.storeBatch seqNo ∉ (submitBatch env seqNo).snd ∧
    Action.executeStoredBatches ∉ (submitBatch env seqNo).snd := by
  rcases env with ⟨stop, st, isv, tb, sg, ch, sr, er⟩
  dsimp only at hval hfail
  subst hval
  by_cases hc : (decide (seqNo > L2GenesisSeqNo + 1) &&
      (st.fetchBatchBySeqNo (seqNo - 1)).isNone) = true
  · cases stop <;> simp [submitBatch, hc]
  · have hnotpar : ¬(seqNo > L2GenesisSeqNo + 1 ∧ st.fetchBatchBySeqNo (seqNo - 1) = none) := by
      intro ⟨h1, h2⟩
      exact hc (by simp [h1, h2])
    rcases hfail with h | ⟨m, hm⟩ | ⟨m, hm⟩ | ⟨m, hm⟩
    · exact absurd h hnotpar
    · subst hm
      cases stop <;> simp [submitBatch, hc]
    · subst hm
      cases stop <;> cases tb <;> simp [submitBatch, hc]
    · subst hm
      cases stop <;> cases tb <;> cases sg <;> simp [submitBatch, hc]

/-- Concrete `SubmitBatch` environment for the C9 witness: the signature
verification fails, everything before it succeeds. -/
def envC9 : SubmitBatchEnv :=
  { stopping := false
    storage := { batches := [], cache := [] }
    isValidator := true
    toBatchResult := .ok ()
    sigResult := .error "bad signature"
    convertedHeader := .ok 0
    storeResult := .ok ()
    executeResult := .ok () }

/-- C9 witness: the atomicity theorem evaluated on `envC9` at sequence
number 2 (the signature check fails there). -/
theorem C9_submitBatch_atomic_witness :
    (∃ e, (submitBatch envC9 2).fst = .err e) ∧
    Action.storeBatch 2 ∉ (submitBatch envC9 2).snd ∧
    Action.executeStoredBatches ∉ (submitBatch envC9 2).snd :=
  C9_submitBatch_atomic envC9 2 rfl (Or.inr (Or.inr (Or.inl ⟨"bad signature", rfl⟩)))

/-- C10: `Status` degrades gracefully on absent data: with no stored shared
secret it returns `AwaitingSecret` with `L2Head` zero and no error; with a
secret present it returns `Running` with the zero hash when no L1 head exists
and with the highest stored sequencer number (zero when none is stored) as
`L2Head`, never an error in these cases. -/
theorem C10_status_graceful (env : StatusEnv) (hstop : env.stopping = false) :
    (env.fetchSecret = .error .notFound →
      status env = ({ code := .awaitingSecret, l1Head := 0, l2Head := 0 }, none)) ∧
    (∀ s, env.fetchSecret = .ok s →
      (status env).snd = none ∧
      (status env).fst.code = .running ∧
      (∀ m, env.getHead = .error m → (status env).fst.l1Head = 0) ∧
      (∀ h, env.getHead = .ok h → (status env).fst.l1Head = h) ∧
      (∀ m, env.fetchCurrentSequencerNo = .error m → (status env).fst.l2Head = 0) ∧
      (∀ n, env.fetchCurrentSequencerNo = .ok n → (status env).fst.l2Head = n)) := by
  constructor
  · intro hsec
    simp [status, hstop, hsec]
  · intro s hsec
    refine ⟨by simp [status, hstop, hsec], by simp [status, hstop, hsec], ?_, ?_, ?_, ?_⟩
    · intro m hm
      simp [status, hstop, hsec, hm]
    · intro h hm
      simp [status, hstop, hsec, hm]
    · intro m hm
      simp [status, hstop, hsec, hm]
    · intro n hm
      simp [status, hstop, hsec, hm]

/-- Concrete `Status` environment for the C10 witness: a secret is stored, no
L1 head exists yet, and the highest stored sequencer number is 5. -/
def envC10 : StatusEnv :=
  { stopping := false
    fetchSecret := .ok 42
    getHead := .error "no head"
    fetchCurrentSequencerNo := .ok 5 }

/-- C10 witness: the graceful-degradation theorem evaluated on `envC10`. -/
theorem C10_status_graceful_witness :
    (status envC10).snd = none ∧
    (status envC10).fst.code = .running ∧
    (status envC10).fst.l1Head = 0 ∧
    (status envC10).fst.l2Head = 5 := by
  have h := (C10_status_graceful envC10 rfl).2 42 rfl
  exact ⟨h.1, h.2.1, h.2.2.1 "no head" rfl, h.2.2.2.2.2 5 rfl⟩

/-- C6: whenever `SubmitL1Block` rejects a block (block/receipts parse
failure, ingestion failure, or node-service failure), the error returned is a
`BlockReject` error wrapping the original cause and carrying the current L1
head hash. -/
theorem C6_blockReject_wraps (env : L1Env) (h : Nat)
    (hstop : env.stopping = false) (hhead : env.l1Head = some h) :
    (∀ m, env.parseResult = .error m →
      (submitL1Block env).fst =
        .err (.blockReject h ("could not submit L1 block. Cause: " ++ m))) ∧
    (∀ m tr, env.parseResult = .ok () → ingestL1Block env = (.error m, tr) →
      (submitL1Block env).fst =
        .err (.blockReject h ("could not submit L1 block. Cause: " ++ m))) ∧
    (∀ m ing tr, env.parseResult = .ok () → ingestL1Block env = (.ok ing, tr) →
      env.onL1BlockResult = .error m →
      (submitL1Block env).fst =
        .err (.blockReject h ("could not submit L1 block. Cause: " ++ m))) := by
  refine ⟨?_, ?_, ?_⟩
  · intro m hm
    simp [submitL1Block, hstop, hm, rejectBlockErr, hhead]
  · intro m tr hp hi
    simp [submitL1Block, hstop, hp, hi, rejectBlockErr, hhead]
  · intro m ing tr hp hi hb
    simp [submitL1Block, hstop, hp, hi, hb, rejectBlockErr, hhead]

/-- Concrete `SubmitL1Block` environment for the C6 witness: the
block/receipts parse fails while an L1 head with hash 7 exists. -/
def envC6 : L1Env :=
  { stopping := false
    parseResult := .error "invalid receipts"
    processResult := .ok { isFork := false }
    rollupResult := .ok ()
    onL1ForkResult := .ok ()
    onL1BlockResult := .ok ()
    l1Head := some 7 }

/-- C6 witness: the wrapping theorem evaluated on `envC6`, whose parse step
fails. -/
theorem C6_blockReject_wraps_witness :
    (submitL1Block envC6).fst =
      .err (.blockReject 7 ("could not submit L1 block. Cause: " ++ "invalid receipts")) :=
  (C6_blockReject_wraps envC6 7 rfl rfl).1 "invalid receipts" rfl

/-- Concrete `SubmitL1Block` environment for claim C4: the block was already
processed, so `l1BlockProcessor.Process` fails with the `AlreadyProcessed`
sentinel; no L1 head exists yet. -/
def envC4 : L1Env :=
  { stopping := false
    parseResult := .ok ()
    processResult := .error .alreadyProcessed
    rollupResult := .ok ()
    onL1ForkResult := .ok ()
    onL1BlockResult := .ok ()
    l1Head := none }

/-- C4 counterexample: resubmitting an already-processed L1 block makes
`SubmitL1Block` return a `BlockReject` error to the caller — the
`AlreadyProcessed` condition is a failure of the call, contrary to the
claim. -/
theorem C4_counterexample :
    (submitL1Block envC4).fst =
      .err (.blockReject 0 ("could not submit L1 block. Cause: " ++ ProcErr.message .alreadyProcessed)) ∧
    (submitL1Block envC4).fst ≠ .ok () := by
  refine ⟨rfl, by decide⟩

/-- C4 (amended): for an already-processed L1 block, the `AlreadyProcessed`
condition is matched by kind only to log at debug rather than warn level, and
no re-ingestion happens (no block stored, no rollup processing, no
node-service notification); but `SubmitL1Block` still fails, returning a
`BlockReject` error wrapping the condition. -/
theorem C4_alreadyProcessed (env : L1Env)
    (hstop : env.stopping = false) (hparse : env.parseResult = .ok ())
    (hproc : env.processResult = .error .alreadyProcessed) :
    submitL1Block env =
      (.err (rejectBlockErr env.l1Head
          ("could not submit L1 block. Cause: " ++ ProcErr.message .alreadyProcessed)),
        [.lock, .logDebug, .unlock]) ∧
    Action.processL1Block ∉ (submitL1Block env).snd ∧
    Action.processRollups ∉ (submitL1Block env).snd ∧
    Action.onL1Block ∉ (submitL1Block env).snd ∧
    Action.logWarn ∉ (submitL1Block env).snd ∧
    Action.logDebug ∈ (submitL1Block env).snd := by
  have heq : submitL1Block env =
      (.err (rejectBlockErr env.l1Head
          ("could not submit L1 block. Cause: " ++ ProcErr.message .alreadyProcessed)),
        [.lock, .logDebug, .unlock]) := by
    simp [submitL1Block, ingestL1Block, hstop, hparse, hproc]
  refine ⟨heq, ?_, ?_, ?_, ?_, ?_⟩ <;> rw [heq] <;> simp

/-- C4 witness: the amended theorem evaluated on `envC4`. -/
theorem C4_alreadyProcessed_witness :
    submitL1Block envC4 =
      (.err (rejectBlockErr envC4.l1Head
          ("could not submit L1 block. Cause: " ++ ProcErr.message .alreadyProcessed)),
        [.lock, .logDebug, .unlock]) ∧
    Action.processL1Block ∉ (submitL1Block envC4).snd ∧
    Action.processRollups ∉ (submitL1Block envC4).snd ∧
    Action.onL1Block ∉ (submitL1Block envC4).snd ∧
    Action.logWarn ∉ (submitL1Block envC4).snd ∧
    Action.logDebug ∈ (submitL1Block envC4).snd :=
  C4_alreadyProcessed envC4 rfl rfl rfl

/-- C5 counterexample: invoking `CreateBatch` on an enclave configured as a
Validator panics through the `e.Sequencer()` accessor — it terminates
abnormally instead of returning a structured SystemError. -/
theorem C5_counterexample :
    (createBatch { stopping := false, isSequencer := false, serviceResult := .ok () }).fst =
      .panicked "enclave service is not a sequencer but sequencer was requested!" ∧
    ((createBatch { stopping := false, isSequencer := false, serviceResult := .ok () }).fst).isStructured
      = false := by
  refine ⟨rfl, rfl⟩

/-- C5 (amended): every embedded facade operation returns either a typed
payload or a structured SystemError when invoked on a role-matching
configuration — `CreateBatch` and `CreateRollup` on a Sequencer, `SubmitBatch`
on a Validator, and unconditionally `SubmitL1Block`, `GenerateSecret`,
`InitEnclave`, `EnclaveID`, `GetBatch` and the encrypted RPCs (through the
shared `withVKEncryption` shape all eight instantiate).  The role-mismatched
calls terminate abnormally instead: `CreateBatch` on a Validator panics,
`CreateRollup` on a Validator panics whenever the registry has a head batch
(with no head it returns a SystemError before the role check), and
`SubmitBatch` on a Sequencer panics once its parent check and payload
conversion pass. -/
theorem C5_structured_or_panicking (cb : CreateBatchEnv) (cr : CreateRollupEnv)
    (l1 : L1Env) (sb : SubmitBatchEnv) (n : Nat) (cs : CryptoScheme) (entropy : Nat)
    (storeOk : Bool) (es : EnclaveState) (bb : Bool) (k : Nat)
    (f c : Except String Unit) (r : Except String Nat) (nm : String) :
    (cb.isSequencer = true → ((createBatch cb).fst).isStructured = true) ∧
    (cr.isSequencer = true → ((createRollup cr).fst).isStructured = true) ∧
    (sb.isValidator = true → ((submitBatch sb n).fst).isStructured = true) ∧
    ((submitL1Block l1).fst).isStructured = true ∧
    ((generateSecret cs entropy storeOk es).fst).isStructured = true ∧
    ((initEnclave cs k storeOk es).fst).isStructured = true ∧
    (enclaveID bb k).isStructured = true ∧
    (getBatch bb f c).isStructured = true ∧
    ((withVKEncryption bb r nm).fst).isStructured = true ∧
    (cb.isSequencer = false → cb.stopping = false →
      (createBatch cb).fst =
        .panicked "enclave service is not a sequencer but sequencer was requested!") ∧
    (∀ hs, cr.isSequencer = false → cr.stopping = false → cr.headBatchSeq = some hs →
      (createRollup cr).fst =
        .panicked "enclave service is not a sequencer but sequencer was requested!") ∧
    (sb.isValidator = false → sb.stopping = false →
      (decide (n > L2GenesisSeqNo + 1) &&
        (sb.storage.fetchBatchBySeqNo (n - 1)).isNone) = false →
      sb.toBatchResult = .ok () →
      (submitBatch sb n).fst =
        .panicked "enclave service is not a validator but validator was requested!") := by
  refine ⟨?_, ?_, ?_, ?_, ?_, ?_, ?_, ?_, ?_, ?_, ?_, ?_⟩
  · intro hseq
    rcases cb with ⟨stop, isq, r2⟩
    dsimp only at hseq
    subst hseq
    cases stop <;> cases r2 <;> simp [createBatch, Outcome.isStructured]
  · intro hseq
    rcases cr with ⟨stop, isq, hd, r2⟩
    dsimp only at hseq
    subst hseq
    cases stop <;> cases hd <;> cases r2 <;> simp [createRollup, Outcome.isStructured]
  · intro hval
    rcases sb with ⟨stop, st, isv, tb, sg, ch, sr, er⟩
    dsimp only at hval
    subst hval
    by_cases hc : (decide (n > L2GenesisSeqNo + 1) &&
        (st.fetchBatchBySeqNo (n - 1)).isNone) = true <;>
      cases stop <;> cases tb <;> cases sg <;> cases ch <;> cases sr <;> cases er <;>
        simp [submitBatch, hc, Outcome.isStructured]
  · rcases l1 with ⟨stop, pr, proc, ru, f2, ob, hd⟩
    cases stop <;> rcases pr with pm | pu <;> rcases proc with pe | ⟨⟨bfv⟩⟩ <;>
      rcases ru with re | rru <;> (try cases re) <;> (try cases bfv) <;>
      rcases f2 with fm | fu <;> rcases ob with om | ou <;>
      simp [submitL1Block, ingestL1Block, Outcome.isStructured]
  · rcases es with ⟨pk, sk, ss, stp⟩
    cases stp <;> cases storeOk <;> simp [generateSecret, Outcome.isStructured]
  · rcases es with ⟨pk, sk, ss, stp⟩
    cases stp <;> cases storeOk <;> rcases hdec : cs.decrypt sk k with _ | sx <;>
      simp [initEnclave, hdec, Outcome.isStructured]
  · simp [enclaveID, Outcome.isStructured]
  · cases f <;> cases c <;> simp [getBatch, Outcome.isStructured]
  · cases bb <;> cases r <;> simp [withVKEncryption, Outcome.isStructured]
  · intro hseq hstop
    simp [createBatch, hstop, hseq]
  · intro hs hseq hstop hhd
    simp [createRollup, hstop, hseq, hhd]
  · intro hval hstop hcond htb
    simp [submitBatch, hstop, hcond, htb, hval]

/-- Concrete environments for the C5 witness: a sequencer-configured
`CreateBatch` and `CreateRollup`, a validator-configured `SubmitBatch`, and a
successful `SubmitL1Block`. -/
def envC5cb : CreateBatchEnv :=
  { stopping := false, isSequencer := true, serviceResult := .ok () }

/-- Validator-configured `CreateRollup` environment with an initialised
registry, used to exhibit the panic of the C5 amendment. -/
def envC5cr : CreateRollupEnv :=
  { stopping := false, isSequencer := false, headBatchSeq := some 4, serviceResult := .ok 9 }

/-- Stopping `SubmitL1Block` environment used as a filler argument of the C5
witness. -/
def envC5l1 : L1Env :=
  { stopping := true
    parseResult := .ok ()
    processResult := .ok { isFork := false }
    rollupResult := .ok ()
    onL1ForkResult := .ok ()
    onL1BlockResult := .ok ()
    l1Head := none }

/-- Sequencer-configured `SubmitBatch` environment for the C5 witness: not
stopping, no parent check triggered at sequence number 2, and a successful
payload conversion, so the call reaches the panicking `e.Validator()`
accessor. -/
def envC5sb : SubmitBatchEnv :=
  { stopping := false
    storage := { batches := [], cache := [] }
    isValidator := false
    toBatchResult := .ok ()
    sigResult := .ok ()
    convertedHeader := .ok 0
    storeResult := .ok ()
    executeResult := .ok () }

/-- C5 witness: the amended theorem evaluated on concrete environments; the
sequencer-configured `CreateBatch` is structured, an encrypted RPC is
structured even while stopping, the validator-configured `CreateRollup` with
an initialised registry panics, and `SubmitBatch` on a sequencer-configured
enclave panics. -/
theorem C5_structured_or_panicking_witness :
    ((createBatch envC5cb).fst).isStructured = true ∧
    ((withVKEncryption true (.ok 3) "ObsCall").fst).isStructured = true ∧
    (createRollup envC5cr).fst =
      .panicked "enclave service is not a sequencer but sequencer was requested!" ∧
    (submitBatch envC5sb 2).fst =
      .panicked "enclave service is not a validator but validator was requested!" := by
  have h := C5_structured_or_panicking envC5cb envC5cr envC5l1 envC5sb 2
    { encrypt := fun _ s => s, decrypt := fun _ c => some c } 0 true
    { pubKey := 0, privKey := 0, storedSecret := none, stopping := false }
    true 3 (.ok ()) (.ok ()) (.ok 3) "ObsCall"
  exact ⟨h.1 rfl, h.2.2.2.2.2.2.2.2.1,
    h.2.2.2.2.2.2.2.2.2.2.1 4 rfl rfl rfl,
    h.2.2.2.2.2.2.2.2.2.2.2 rfl rfl (by decide) rfl⟩

/-- Uneventful `Stop` environment for claim C7: no profiler and every close
succeeds. -/
def envC7stop : StopEnv :=
  { profilerPresent := false
    profilerStopErr := none
    serviceCloseErr := none
    storageCloseErr := none }

/-- C7 counterexample: after `Stop` has set the stop flag, `EnclaveID` and
`GetBatch` still succeed — they perform no stop-control check and do not fail
with `Unavailable`, contrary to the claim that every subsequent facade
entry-point call first observes the stop flag and fails. -/
theorem C7_counterexample :
    (stopImpl false envC7stop).snd = true ∧
    enclaveID (stopImpl false envC7stop).snd 5 = .ok 5 ∧
    getBatch (stopImpl false envC7stop).snd (.ok ()) (.ok ()) = .ok () := by
  refine ⟨rfl, rfl, rfl⟩

/-- C7 (amended): once `Stop` has been called, every subsequent call to an
entry point that performs the stop-control check (`SubmitL1Block`,
`SubmitBatch`, `CreateBatch`, `CreateRollup`, `Status`, the encrypted RPCs,
`GenerateSecret`, `InitEnclave`) fails deterministically — with a SystemError
built by `responses.ToInternalError` (classified `Internal`, not
`Unavailable`; only the `Status` payload carries the Unavailable status
code); `EnclaveID` and `GetBatch` perform no stop-control check and behave
identically whether or not the enclave is stopping; and `Stop` is idempotent:
it never consults the prior flag, so a repeated call with the same
collaborator outcomes returns the same result and leaves the flag set. -/
theorem C7_stop_gate (l1 : L1Env) (sb : SubmitBatchEnv) (cb : CreateBatchEnv)
    (cr : CreateRollupEnv) (se : StatusEnv) (cs : CryptoScheme) (entropy : Nat)
    (storeOk : Bool) (es : EnclaveState) (r : Except String Nat)
    (senv : StopEnv) (b : Bool) (n k : Nat) (f c : Except String Unit) :
    (l1.stopping = true → (submitL1Block l1).fst =
      .err (ToInternalError "requested SubmitL1Block with the enclave stopping")) ∧
    (sb.stopping = true → (submitBatch sb n).fst =
      .err (ToInternalError "requested SubmitBatch with the enclave stopping")) ∧
    (cb.stopping = true → (createBatch cb).fst =
      .err (ToInternalError "requested CreateBatch with the enclave stopping")) ∧
    (cr.stopping = true → (createRollup cr).fst =
      .err (ToInternalError "requested GenerateRollup with the enclave stopping")) ∧
    (se.stopping = true → status se =
      ({ code := .unavailableCode, l1Head := 0, l2Head := 0 },
        some (ToInternalError "requested Status with the enclave stopping"))) ∧
    (es.stopping = true → (generateSecret cs entropy storeOk es).fst =
      .err (ToInternalError "requested GenerateSecret with the enclave stopping")) ∧
    (es.stopping = true → (initEnclave cs k storeOk es).fst =
      .err (ToInternalError "requested InitEnclave with the enclave stopping")) ∧
    ((obsCall true r).fst =
      .err (ToInternalError ("requested " ++ "ObsCall" ++ " with the enclave stopping"))) ∧
    (stopImpl (stopImpl b senv).snd senv = stopImpl b senv) ∧
    ((stopImpl b senv).snd = true) ∧
    (enclaveID (stopImpl b senv).snd k = enclaveID false k) ∧
    (getBatch (stopImpl b senv).snd f c = getBatch false f c) := by
  refine ⟨?_, ?_, ?_, ?_, ?_, ?_, ?_, ?_, ?_, ?_, ?_, ?_⟩
  · intro h
    simp [submitL1Block, h]
  · intro h
    simp [submitBatch, h]
  · intro h
    simp [createBatch, h]
  · intro h
    simp [createRollup, h]
  · intro h
    simp [status, h]
  · intro h
    simp [generateSecret, h]
  · intro h
    simp [initEnclave, h]
  · simp [obsCall, withVKEncryption]
  · rfl
  · rcases senv with ⟨pp, pe, sce, ste⟩
    cases pp <;> cases pe <;> cases sce <;> cases ste <;> simp [stopImpl]
  · rfl
  · rfl

/-- Stopping environments for the C7 witness. -/
def envC7l1 : L1Env :=
  { stopping := true
    parseResult := .ok ()
    processResult := .ok { isFork := false }
    rollupResult := .ok ()
    onL1ForkResult := .ok ()
    onL1BlockResult := .ok ()
    l1Head := none }

/-- Stopping `SubmitBatch` environment for the C7 witness. -/
def envC7sb : SubmitBatchEnv :=
  { stopping := true
    storage := { batches := [], cache := [] }
    isValidator := true
    toBatchResult := .ok ()
    sigResult := .ok ()
    convertedHeader := .ok 0
    storeResult := .ok ()
    executeResult := .ok () }

/-- C7 witness: the amended theorem evaluated on stopping environments. -/
theorem C7_stop_gate_witness :
    (submitL1Block envC7l1).fst =
      .err (ToInternalError "requested SubmitL1Block with the enclave stopping") ∧
    (submitBatch envC7sb 2).fst =
      .err (ToInternalError "requested SubmitBatch with the enclave stopping") ∧
    (createBatch { stopping := true, isSequencer := true, serviceResult := .ok () }).fst =
      .err (ToInternalError "requested CreateBatch with the enclave stopping") ∧
    (stopImpl (stopImpl false envC7stop).snd envC7stop = stopImpl false envC7stop) := by
  have h := C7_stop_gate envC7l1 envC7sb
    { stopping := true, isSequencer := true, serviceResult := .ok () }
    { stopping := true, isSequencer := true, headBatchSeq := none, serviceResult := .ok 0 }
    { stopping := true, fetchSecret := .ok 0, getHead := .ok 0, fetchCurrentSequencerNo := .ok 0 }
    { encrypt := fun _ s => s, decrypt := fun _ c => some c } 0 true
    { pubKey := 0, privKey := 0, storedSecret := none, stopping := true }
    (.ok 0) envC7stop false 2 5 (.ok ()) (.ok ())
  exact ⟨h.1 rfl, h.2.1 rfl, h.2.2.1 rfl, h.2.2.2.2.2.2.2.2.1⟩

/-- C8: if `GenerateSecret` on enclave A stores a secret and returns envelope
E, and `InitEnclave E` on enclave B succeeds because the private key of B
matches the public key E was encrypted under, then B stores the same secret
as A. -/
theorem C8_secret_replication (cs : CryptoScheme) (entropy : Nat) (A B : EnclaveState)
    (hA : A.stopping = false) (hB : B.stopping = false)
    (hmatch : ∀ x, cs.decrypt B.privKey (cs.encrypt A.pubKey x) = some x) :
    ∀ E A2, generateSecret cs entropy true A = (.ok E, A2) →
      ∃ B2, initEnclave cs E true B = (.ok (), B2) ∧
        B2.storedSecret = A2.storedSecret ∧
        A2.storedSecret = some entropy := by
  intro E A2 hgen
  have hgen2 : generateSecret cs entropy true A =
      (.ok (cs.encrypt A.pubKey entropy), { A with storedSecret := some entropy }) := by
    simp [generateSecret, hA]
  rw [hgen2] at hgen
  obtain ⟨hE, hA2⟩ := Prod.mk.injEq .. ▸ hgen
  have hE2 : E = cs.encrypt A.pubKey entropy := by
    cases hE
    rfl
  refine ⟨{ B with storedSecret := some entropy }, ?_, ?_, ?_⟩
  · rw [hE2]
    simp [initEnclave, hB, hmatch entropy]
  · rw [← hA2]
  · rw [← hA2]

/-- Concrete crypto scheme for the C8 witness: encryption adds the public key
to the secret and decryption subtracts the private key; the keypair (7, 7)
is matching. -/
def csC8 : CryptoScheme :=
  { encrypt := fun pub s => s + pub
    decrypt := fun priv c => some (c - priv) }

/-- Enclave A of the C8 witness, with public key 7. -/
def enclaveA : EnclaveState :=
  { pubKey := 7, privKey := 3, storedSecret := none, stopping := false }

/-- Enclave B of the C8 witness, with private key 7 matching the public key
of enclave A. -/
def enclaveB : EnclaveState :=
  { pubKey := 9, privKey := 7, storedSecret := none, stopping := false }

/-- C8 witness: the replication theorem evaluated on the concrete scheme with
entropy 5 and envelope 12. -/
theorem C8_secret_replication_witness :
    ∃ B2, initEnclave csC8 12 true enclaveB = (.ok (), B2) ∧
      B2.storedSecret = ({ enclaveA with storedSecret := some 5 } : EnclaveState).storedSecret ∧
      ({ enclaveA with storedSecret := some 5 } : EnclaveState).storedSecret = some 5 :=
  C8_secret_replication csC8 5 enclaveA enclaveB rfl rfl
    (fun x => by simp [csC8, enclaveA, enclaveB]) 12 { enclaveA with storedSecret := some 5 } rfl

/-- C3: in each of the four state-mutating entry points (`SubmitL1Block`,
`SubmitBatch`, `CreateBatch`, `CreateRollup`) every state-mutating step
happens while the ingestion mutex is held, the three entry points that lock
first acquire it exactly when they are not stopping, and the read-only
encrypted RPCs never acquire it. -/
theorem C3_ingestion_mutex (l1 : L1Env) (sb : SubmitBatchEnv) (n : Nat)
    (cb : CreateBatchEnv) (cr : CreateRollupEnv)
    (s1 s2 s3 s4 s5 s6 s7 s8 : Bool) (r1 r2 r3 r4 r5 r6 r7 r8 : Except String Nat) :
    mutatesOnlyUnderLock (submitL1Block l1).snd = true ∧
    mutatesOnlyUnderLock (submitBatch sb n).snd = true ∧
    mutatesOnlyUnderLock (createBatch cb).snd = true ∧
    mutatesOnlyUnderLock (createRollup cr).snd = true ∧
    (submitL1Block l1).snd.contains .lock = !l1.stopping ∧
    (createBatch cb).snd.contains .lock = !cb.stopping ∧
    (createRollup cr).snd.contains .lock = !cr.stopping ∧
    Action.lock ∉ (obsCall s1 r1).snd ∧
    Action.lock ∉ (getBalance s2 r2).snd ∧
    Action.lock ∉ (getTransaction s3 r3).snd ∧
    Action.lock ∉ (getTransactionReceipt s4 r4).snd ∧
    Action.lock ∉ (getTransactionCount s5 r5).snd ∧
    Action.lock ∉ (getLogs s6 r6).snd ∧
    Action.lock ∉ (estimateGas s7 r7).snd ∧
    Action.lock ∉ (getCustomQuery s8 r8).snd := by
  refine ⟨?_, ?_, ?_, ?_, ?_, ?_, ?_, ?_, ?_, ?_, ?_, ?_, ?_, ?_, ?_⟩
  · rcases l1 with ⟨stop, pr, proc, ru, f, ob, hd⟩
    cases stop <;> rcases pr with pm | pu <;> rcases proc with pe | ⟨⟨bfv⟩⟩ <;>
      (try cases pe) <;>
      rcases ru with re | rru <;> (try cases re) <;> (try cases bfv) <;>
      rcases f with fm | fu <;> rcases ob with om | ou <;>
      simp [submitL1Block, ingestL1Block, mutatesOnlyUnderLock, heldScan, Action.isMutating]
  · rcases sb with ⟨stop, st, isv, tb, sg, ch, sr, er⟩
    by_cases hc : (decide (n > L2GenesisSeqNo + 1) &&
        (st.fetchBatchBySeqNo (n - 1)).isNone) = true <;>
      cases stop <;> cases isv <;> cases tb <;> cases sg <;> cases ch <;> cases sr <;>
        cases er <;>
        simp [submitBatch, hc, mutatesOnlyUnderLock, heldScan, Action.isMutating]
  · rcases cb with ⟨stop, isq, r⟩
    cases stop <;> cases isq <;> cases r <;>
      simp [createBatch, mutatesOnlyUnderLock, heldScan, Action.isMutating]
  · rcases cr with ⟨stop, isq, hdr, r⟩
    cases stop <;> cases isq <;> cases hdr <;> cases r <;>
      simp [createRollup, mutatesOnlyUnderLock, heldScan, Action.isMutating]
  · rcases l1 with ⟨stop, pr, proc, ru, f, ob, hd⟩
    cases stop <;> rcases pr with pm | pu <;> rcases proc with pe | ⟨⟨bfv⟩⟩ <;>
      (try cases pe) <;>
      rcases ru with re | rru <;> (try cases re) <;> (try cases bfv) <;>
      rcases f with fm | fu <;> rcases ob with om | ou <;>
      simp [submitL1Block, ingestL1Block]
  · rcases cb with ⟨stop, isq, r⟩
    cases stop <;> cases isq <;> cases r <;> simp [createBatch]
  · rcases cr with ⟨stop, isq, hdr, r⟩
    cases stop <;> cases isq <;> cases hdr <;> cases r <;> simp [createRollup]
  · cases s1 <;> cases r1 <;> simp [obsCall, withVKEncryption]
  · cases s2 <;> cases r2 <;> simp [getBalance, withVKEncryption]
  · cases s3 <;> cases r3 <;> simp [getTransaction, withVKEncryption]
  · cases s4 <;> cases r4 <;> simp [getTransactionReceipt, withVKEncryption]
  · cases s5 <;> cases r5 <;> simp [getTransactionCount, withVKEncryption]
  · cases s6 <;> cases r6 <;> simp [getLogs, withVKEncryption]
  · cases s7 <;> cases r7 <;> simp [estimateGas, withVKEncryption]
  · cases s8 <;> cases r8 <;> simp [getCustomQuery, withVKEncryption]

/-- A successful `FetchBatch` returns a stored batch. -/
theorem fetchBatch_mem {st : Storage} {h : Nat} {b : Batch}
    (hf : st.fetchBatch h = some b) : b ∈ st.batches :=
  List.mem_of_find?_eq_some hf

/-- A successful `FetchBatchBySeqNo` returns a stored batch. -/
theorem fetchBatchBySeqNo_mem {st : Storage} {n : Nat} {b : Batch}
    (hf : st.fetchBatchBySeqNo n = some b) : b ∈ st.batches :=
  List.mem_of_find?_eq_some hf

/-- In well-formed storage, every stored non-genesis batch resolves its parent
to a stored batch of smaller height. -/
theorem wfStorage_spec {st : Storage} (hwf : wfStorage st = true) :
    ∀ b ∈ st.batches, b.number ≠ 0 →
      ∃ p, st.fetchBatch b.parentHash = some p ∧ p.number < b.number ∧ p ∈ st.batches := by
  intro b hb hn
  have hcond := List.all_eq_true.mp hwf b hb
  rcases hfetch : st.fetchBatch b.parentHash with _ | p
  · rw [hfetch] at hcond
    simp [hn] at hcond
  · rw [hfetch] at hcond
    simp [hn] at hcond
    exact ⟨p, rfl, hcond, fetchBatch_mem hfetch⟩

/-- Specification of the backward walk of the recovery routine: in well-formed
storage, starting from a stored batch with enough fuel, the walk succeeds and
yields the maximal parent-linked chain of batches without a cached snapshot,
newest first, strictly descending in height, stopping at a cached parent or
at the genesis batch. -/
theorem collectBatches_spec (st : Storage) (hwf : wfStorage st = true) :
    ∀ fuel b, b ∈ st.batches → b.number < fuel →
      ∃ l, collectBatches st fuel b = .ok l ∧
        (stateDBAvailableForBatch st b.hash = true → l = []) ∧
        (stateDBAvailableForBatch st b.hash = false → l.head? = some b) ∧
        (∀ x ∈ l, stateDBAvailableForBatch st x.hash = false) ∧
        parentChain st l = true ∧
        walkEnds st l = true ∧
        List.Chain' (fun a c => c.number < a.number) l := by
  intro fuel
  induction fuel with
  | zero =>
    intro b _ hlt
    exact absurd hlt (Nat.not_lt_zero _)
  | succ fuel ih =>
    intro b hb hlt
    by_cases hav : stateDBAvailableForBatch st b.hash = true
    · refine ⟨[], by simp [collectBatches, hav], fun _ => rfl, ?_, by simp, rfl, rfl, by simp⟩
      intro hfalse
      rw [hav] at hfalse
      cases hfalse
    · have hav2 : stateDBAvailableForBatch st b.hash = false := by
        simpa using hav
      by_cases hz : b.number = 0
      · refine ⟨[b], by simp [collectBatches, hav2, hz], ?_, fun _ => rfl, ?_, rfl, ?_, by simp⟩
        · intro htrue
          rw [htrue] at hav2
          cases hav2
        · intro x hx
          rcases List.mem_singleton.mp hx with rfl
          exact hav2
        · simp [walkEnds, hz]
      · obtain ⟨p, hp, hplt, hpmem⟩ := wfStorage_spec hwf b hb hz
        have hpfuel : p.number < fuel := Nat.lt_of_lt_of_le hplt (Nat.lt_succ_iff.mp hlt)
        obtain ⟨l2, hl2, hempty, hhead, hall, hchain, hends, hdesc⟩ := ih p hpmem hpfuel
        have hcoll : collectBatches st (fuel + 1) b = .ok (b :: l2) := by
          simp [collectBatches, hav2, hz, hp, hl2, Except.map]
        refine ⟨b :: l2, hcoll, ?_, fun _ => rfl, ?_, ?_, ?_, ?_⟩
        · intro htrue
          rw [htrue] at hav2
          cases hav2
        · intro x hx
          rcases List.mem_cons.mp hx with rfl | hx2
          · exact hav2
          · exact hall x hx2
        · cases hl2e : l2 with
          | nil => simp [parentChain]
          | cons q t =>
            have hpav : stateDBAvailableForBatch st p.hash = false := by
              by_cases hpa : stateDBAvailableForBatch st p.hash = true
              · rw [hempty hpa] at hl2e
                cases hl2e
              · simpa using hpa
            have hq : q = p := by
              have := hhead hpav
              rw [hl2e] at this
              exact (Option.some.injEq ..).mp this.symm ▸ rfl
            subst hq
            rw [hl2e] at hchain
            simp [parentChain, hp, hchain]
        · cases hl2e : l2 with
          | nil =>
            have hpav : stateDBAvailableForBatch st p.hash = true := by
              by_cases hpa : stateDBAvailableForBatch st p.hash = true
              · exact hpa
              · have := hhead (by simpa using hpa)
                rw [hl2e] at this
                cases this
            simp [walkEnds, hz, hp, hpav]
          | cons q t =>
            have hwe : walkEnds st (b :: q :: t) = walkEnds st (q :: t) := by
              simp [walkEnds, List.getLast?_cons_cons]
            rw [hwe, ← hl2e]
            exact hends
        · rw [List.chain'_cons']
          constructor
          · intro y hy
            cases hl2e : l2 with
            | nil =>
              rw [hl2e] at hy
              cases hy
            | cons q t =>
              have hpav : stateDBAvailableForBatch st p.hash = false := by
                by_cases hpa : stateDBAvailableForBatch st p.hash = true
                · rw [hempty hpa] at hl2e
                  cases hl2e
                · simpa using hpa
              have hqh := hhead hpav
              rw [hl2e] at hy hqh
              simp at hy hqh
              rw [← hy, hqh]
              exact hplt
          · exact hdesc

/-- When every executor step and the genesis seeding succeed, the forward
replay emits one replay action per batch, in list order. -/
theorem replayForward_all_ok (env : ReplayEnv) (hg : env.genesisOk = true)
    (hx : ∀ k, env.executeOk k = true) :
    ∀ m : List Batch, replayForward env m =
      .ok (m.map (fun b =>
        if b.number == 0 then ReplayAction.commitGenesis else .executeBatch b.seqNo)) := by
  intro m
  induction m with
  | nil => rfl
  | cons b t iht =>
    by_cases hz : b.number = 0 <;>
      simp [replayForward, hz, hg, hx b.seqNo, iht, Except.map]

/-- C2: the startup state-cache recovery does nothing when the registry has
no head batch (or the head batch is not in storage), does nothing when the
head batch snapshot is cached, and otherwise walks parent links backwards
from the head collecting exactly the parent-linked chain of batches without a
cached snapshot — until a batch with a cached parent snapshot is found or the
genesis batch is reached — and replays the collected batches forward in
ascending order, seeding genesis state for the genesis batch and executing
every other batch through the BatchExecutor, committing one snapshot per
batch. -/
theorem C2_restore_cache (st : Storage) (env : ReplayEnv) (headBatchSeq : Option Nat)
    (fuel : Nat) :
    (headBatchSeq = none → restoreStateDBCache st headBatchSeq env fuel = .ok []) ∧
    (∀ hs, headBatchSeq = some hs → st.fetchBatchBySeqNo hs = none →
      restoreStateDBCache st headBatchSeq env fuel = .ok []) ∧
    (∀ hs b, headBatchSeq = some hs → st.fetchBatchBySeqNo hs = some b →
      stateDBAvailableForBatch st b.hash = true →
      restoreStateDBCache st headBatchSeq env fuel = .ok []) ∧
    (∀ hs b, headBatchSeq = some hs → st.fetchBatchBySeqNo hs = some b →
      stateDBAvailableForBatch st b.hash = false →
      wfStorage st = true → b.number < fuel →
      env.genesisOk = true → (∀ k, env.executeOk k = true) →
      ∃ l, collectBatches st fuel b = .ok l ∧
        l.head? = some b ∧
        (∀ x ∈ l, stateDBAvailableForBatch st x.hash = false) ∧
        parentChain st l = true ∧
        walkEnds st l = true ∧
        List.Chain' (fun a c => c.number < a.number) l ∧
        restoreStateDBCache st headBatchSeq env fuel = .ok (replayActions l)) := by
  refine ⟨?_, ?_, ?_, ?_⟩
  · intro h
    subst h
    rfl
  · intro hs h hf
    subst h
    simp [restoreStateDBCache, hf]
  · intro hs b h hf hav
    subst h
    simp [restoreStateDBCache, hf, hav]
  · intro hs b h hf hav hwf hfuel hg hx
    subst h
    obtain ⟨l, hl, hempty, hhead, hall, hchain, hends, hdesc⟩ :=
      collectBatches_spec st hwf fuel b (fetchBatchBySeqNo_mem hf) hfuel
    refine ⟨l, hl, hhead hav, hall, hchain, hends, hdesc, ?_⟩
    have hreplay := replayForward_all_ok env hg hx l.reverse
    simp [restoreStateDBCache, replayBatchesToValidState, hf, hav, hl, hreplay, replayActions]

/-- Concrete storage for the C2 witness: a three-batch chain (genesis at
height 0 with hash 10, then hashes 11 and 12) where only the genesis snapshot
is cached. -/
def stC2 : Storage :=
  { batches :=
      [ { number := 0, seqNo := 1, hash := 10, parentHash := 0 },
        { number := 1, seqNo := 2, hash := 11, parentHash := 10 },
        { number := 2, seqNo := 3, hash := 12, parentHash := 11 } ]
    cache := [10] }

/-- Replay environment for the C2 witness: every step succeeds. -/
def envC2 : ReplayEnv :=
  { executeOk := fun _ => true, genesisOk := true }

/-- C2 witness: the recovery theorem evaluated on `stC2` with head sequence
number 3 — the walk collects the two uncached batches and the replay executes
them in ascending order. -/
theorem C2_restore_cache_witness :
    ∃ l, collectBatches stC2 3 { number := 2, seqNo := 3, hash := 12, parentHash := 11 } = .ok l ∧
      l.head? = some { number := 2, seqNo := 3, hash := 12, parentHash := 11 } ∧
      (∀ x ∈ l, stateDBAvailableForBatch stC2 x.hash = false) ∧
      parentChain stC2 l = true ∧
      walkEnds stC2 l = true ∧
      List.Chain' (fun a c => c.number < a.number) l ∧
      restoreStateDBCache stC2 (some 3) envC2 3 = .ok (replayActions l) :=
  (C2_restore_cache stC2 envC2 (some 3) 3).2.2.2 3
    { number := 2, seqNo := 3, hash := 12, parentHash := 11 }
    rfl (by decide) (by decide) (by decide) (by decide) rfl (fun k => rfl)

end GoTen
